import Mathlib

/-!
Shallow embedding of `scripts/create_build_metadata.py` from the
TobikoData/extension-ci-tools repository, together with proofs of the
behavioural properties claimed for it.

The script is a single-pass metadata generator: it queries git for version
information about the extension repository and the nested `duckdb/`
dependency repository, probes a built binary for its self-reported version,
assembles an eleven-field record, and writes it as JSON to
`build/<build_type>/metadata.json`.

External effects (filesystem existence checks, subprocess invocations, the
clock) are modelled by an explicit environment of oracles; every Python
function becomes a pure Lean function of that environment.
-/

namespace CreateBuildMetadata

/-- Outcome of `subprocess.run(..., check=True)` as used by `run_git_command`:
either the process exited 0 with the given stdout, or an exception of the
caught kinds (`CalledProcessError` for a non-zero exit, `FileNotFoundError`
for a missing executable) was raised. -/
inductive ProcResult where
  | ok (stdout : String)
  | failed
deriving DecidableEq

/-- Outcome of running a candidate binary with `--version` under a timeout
(`subprocess.run([path, "--version"], timeout=5)` without `check=True`):
either it completed with a return code and stdout, or one of the caught
exceptions (`TimeoutExpired`, `FileNotFoundError`, `PermissionError`) was
raised. -/
inductive BinOutcome where
  | completed (returncode : Int) (stdout : String)
  | timedOut
  | fileNotFound
  | permissionDenied
deriving DecidableEq

/-- The external world the script interacts with: path existence checks,
git subprocess invocations (keyed by working directory and argument list),
and executions of a binary path with `--version` under a timeout in
seconds. -/
structure Env where
  pathExists : String → Bool
  gitRun : String → List String → ProcResult
  binaryRun : String → Nat → BinOutcome

/-- Path concatenation, modelling Python `Path` division `a / b`. -/
def joinPath (a b : String) : String := a ++ "/" ++ b

/-- Python `s.strip()` with no argument: remove leading and trailing
whitespace. Defined over the character list so that it evaluates by
kernel reduction. -/
def pyStrip (s : String) : String :=
  String.mk (((s.toList.dropWhile Char.isWhitespace).reverse.dropWhile
    Char.isWhitespace).reverse)

/-- Embedding of `run_git_command(cwd, command)`: run the command and
return its stdout stripped of surrounding whitespace, or the sentinel
string on `CalledProcessError` / `FileNotFoundError`. -/
def run_git_command (env : Env) (cwd : String) (command : List String) : String :=
  match env.gitRun cwd command with
  | .ok out => pyStrip out
  | .failed => "unknown"

/-- Recursion over the character list for `pySplit`: accumulate the
current token in reverse in `acc`, emitting it at each whitespace run and
at the end. -/
def pySplitGo : List Char → List Char → List String
  | [], acc => if acc = [] then [] else [String.mk acc.reverse]
  | c :: rest, acc =>
    if c.isWhitespace then
      if acc = [] then pySplitGo rest []
      else String.mk acc.reverse :: pySplitGo rest []
    else pySplitGo rest (c :: acc)

/-- Python `s.split()` with no separator argument: split on runs of
whitespace, discarding empty pieces. -/
def pySplit (s : String) : List String :=
  pySplitGo s.toList []

/-- The fixed timeout (in seconds) passed to the binary `--version` probe. -/
def binary_version_timeout : Nat := 5

/-- The record returned by `get_duckdb_info`. -/
structure DuckDBInfo where
  git_describe : String
  version : String
  commit : String
deriving DecidableEq

/-- Warning text printed to stderr when `duckdb/` is absent. -/
def duckdbNotFoundWarning (duckdb_dir : String) : String :=
  "Warning: DuckDB submodule not found at " ++ duckdb_dir

/-- Warning text printed to stderr when `duckdb/.git` is absent. -/
def duckdbNotGitWarning : String :=
  "Warning: DuckDB directory is not a git repository"

/-- One iteration of the binary probe loop body for a single candidate
path: returns `some v` exactly when the loop would assign
`actual_version = v` and `break`, and `none` when it would fall through to
the next candidate (path missing, caught exception, non-zero return code,
empty stdout, or whitespace-only stdout). -/
def tryProbeBinary (env : Env) (binary_path : String) : Option String :=
  if env.pathExists binary_path then
    match env.binaryRun binary_path binary_version_timeout with
    | .completed rc out =>
        if rc = 0 ∧ out ≠ "" then
          match pySplit (pyStrip out) with
          | [] => none
          | w :: _ => some w
        else none
    | .timedOut => none
    | .fileNotFound => none
    | .permissionDenied => none
  else none

/-- The probe loop over the candidate binary paths, with
`actual_version = "unknown"` when no candidate yields a version token. -/
def probeBinaries (env : Env) : List String → String
  | [] => "unknown"
  | p :: rest =>
    match tryProbeBinary env p with
    | some v => v
    | none => probeBinaries env rest

/-- The first candidate binary path, `build/<build_type>/duckdb`. -/
def duckdbBinPath (repo_root build_type : String) : String :=
  joinPath (joinPath (joinPath repo_root "build") build_type) "duckdb"

/-- The second candidate binary path, `build/<build_type>/duckdb.exe`. -/
def duckdbExePath (repo_root build_type : String) : String :=
  joinPath (joinPath (joinPath repo_root "build") build_type) "duckdb.exe"

/-- The two candidate binary paths, in the order the source lists them. -/
def binary_paths (repo_root build_type : String) : List String :=
  [duckdbBinPath repo_root build_type, duckdbExePath repo_root build_type]

/-- Embedding of `get_duckdb_info(repo_root, build_type)`: the returned
record paired with the warning lines printed to stderr. -/
def get_duckdb_info (env : Env) (repo_root build_type : String) :
    DuckDBInfo × List String :=
  let duckdb_dir := joinPath repo_root "duckdb"
  if ¬ env.pathExists duckdb_dir then
    (⟨"unknown", "unknown", "unknown"⟩, [duckdbNotFoundWarning duckdb_dir])
  else if ¬ env.pathExists (joinPath duckdb_dir ".git") then
    (⟨"unknown", "unknown", "unknown"⟩, [duckdbNotGitWarning])
  else
    let git_describe :=
      run_git_command env duckdb_dir ["git", "describe", "--tags", "--always", "--long"]
    let commit := run_git_command env duckdb_dir ["git", "rev-parse", "HEAD"]
    let actual_version := probeBinaries env (binary_paths repo_root build_type)
    (⟨git_describe, actual_version, commit⟩, [])

/-- The record returned by `get_extension_info`. -/
structure ExtensionInfo where
  version : String
  commit : String
deriving DecidableEq

/-- Embedding of `get_extension_info(repo_root)`: tag at HEAD if non-empty
and not the sentinel, otherwise the short commit hash; plus the full
commit hash. -/
def get_extension_info (env : Env) (repo_root : String) : ExtensionInfo :=
  let tag := run_git_command env repo_root ["git", "tag", "--points-at", "HEAD"]
  let commit := run_git_command env repo_root ["git", "rev-parse", "HEAD"]
  let short_commit := run_git_command env repo_root ["git", "rev-parse", "--short", "HEAD"]
  let version := if tag ≠ "" ∧ tag ≠ "unknown" then tag else short_commit
  ⟨version, commit⟩

/-- A UTC clock reading with the fields `strftime` consumes, modelling the
`datetime` value returned by `datetime.now(timezone.utc)`. -/
structure UTCTime where
  year : Nat
  month : Nat
  day : Nat
  hour : Nat
  minute : Nat
  second : Nat
deriving DecidableEq

/-- Leap-year rule of the proleptic Gregorian calendar used by
Python `datetime`. -/
def isLeapYear (y : Nat) : Bool :=
  (y % 4 == 0 && y % 100 != 0) || y % 400 == 0

/-- Number of days in a month of the proleptic Gregorian calendar. -/
def daysInMonth (y m : Nat) : Nat :=
  if m = 2 then (if isLeapYear y then 29 else 28)
  else if m = 4 ∨ m = 6 ∨ m = 9 ∨ m = 11 then 30
  else 31

/-- Validity of a clock reading: exactly the ranges Python `datetime`
guarantees for its components (`MINYEAR = 1`, `MAXYEAR = 9999`). -/
def UTCTime.valid (t : UTCTime) : Prop :=
  1 ≤ t.year ∧ t.year ≤ 9999 ∧
  1 ≤ t.month ∧ t.month ≤ 12 ∧
  1 ≤ t.day ∧ t.day ≤ daysInMonth t.year t.month ∧
  t.hour ≤ 23 ∧ t.minute ≤ 59 ∧ t.second ≤ 59

instance (t : UTCTime) : Decidable t.valid := by
  unfold UTCTime.valid; infer_instance

/-- Decimal digit character for `n < 10`. -/
def digitChar (n : Nat) : Char := Char.ofNat (48 + n)

/-- Inverse of `digitChar` on digit characters. -/
def charToDigit (c : Char) : Nat := c.toNat - 48

/-- Two zero-padded decimal digits, as produced by `strftime` fields
`%m`, `%d`, `%H`, `%M`, `%S` on in-range values. -/
def pad2Chars (n : Nat) : List Char :=
  [digitChar (n / 10 % 10), digitChar (n % 10)]

/-- Four zero-padded decimal digits, as produced by `strftime` field `%Y`
on years up to 9999. -/
def pad4Chars (n : Nat) : List Char :=
  [digitChar (n / 1000 % 10), digitChar (n / 100 % 10),
   digitChar (n / 10 % 10), digitChar (n % 10)]

/-- Character sequence of
`strftime("%Y-%m-%dT%H:%M:%SZ")` applied to the clock reading. -/
def buildDateChars (t : UTCTime) : List Char :=
  pad4Chars t.year ++ '-' :: pad2Chars t.month ++ '-' :: pad2Chars t.day ++
  'T' :: pad2Chars t.hour ++ ':' :: pad2Chars t.minute ++ ':' :: pad2Chars t.second ++ ['Z']

/-- The `build_date` string written into the record. -/
def strftime_build_date (t : UTCTime) : String := String.mk (buildDateChars t)

/-- Whether a character is a decimal digit, by code point. -/
def isDigitCh (c : Char) : Bool := 48 ≤ c.toNat && c.toNat ≤ 57

/-- Value of two decimal digit characters. -/
def val2 (a b : Char) : Nat := 10 * charToDigit a + charToDigit b

/-- Value of four decimal digit characters. -/
def val4 (a b c d : Char) : Nat :=
  1000 * charToDigit a + 100 * charToDigit b + 10 * charToDigit c + charToDigit d

/-- Parser for the `YYYY-MM-DDTHH:MM:SSZ` shape over a character list:
succeeds exactly when the list is twenty characters with digits and
separators in the pattern positions, returning the denoted instant. -/
def parseChars : List Char → Option UTCTime
  | [y3, y2, y1, y0, s1, mo1, mo0, s2, d1, d0, s3,
     h1, h0, s4, mi1, mi0, s5, se1, se0, s6] =>
    if s1 = '-' ∧ s2 = '-' ∧ s3 = 'T' ∧ s4 = ':' ∧ s5 = ':' ∧ s6 = 'Z' ∧
       isDigitCh y3 ∧ isDigitCh y2 ∧ isDigitCh y1 ∧ isDigitCh y0 ∧
       isDigitCh mo1 ∧ isDigitCh mo0 ∧ isDigitCh d1 ∧ isDigitCh d0 ∧
       isDigitCh h1 ∧ isDigitCh h0 ∧ isDigitCh mi1 ∧ isDigitCh mi0 ∧
       isDigitCh se1 ∧ isDigitCh se0 then
      some ⟨val4 y3 y2 y1 y0, val2 mo1 mo0, val2 d1 d0,
            val2 h1 h0, val2 mi1 mi0, val2 se1 se0⟩
    else none
  | _ => none

/-- Parser for the `YYYY-MM-DDTHH:MM:SSZ` shape over a string. -/
def parse_build_date (s : String) : Option UTCTime := parseChars s.toList

/-- Whether a string matches the pattern `YYYY-MM-DDTHH:MM:SSZ`. -/
def matchesBuildDatePattern (s : String) : Bool :=
  (parse_build_date s).isSome

/-- Arguments after successful argument parsing; the optional ones are
`none` when the option was not supplied. -/
structure Args where
  extension_name : String
  build_type : String
  platform : String
  ci_tools_version : Option String
  workflow_run_id : Option String

/-- Python `x or ""` on an optional string: the empty string when the
value is `None` or empty, the value itself otherwise. -/
def orEmptyString : Option String → String
  | none => ""
  | some s => if s = "" then "" else s

/-- Remaining per-invocation world state: the oracle environment, the
working directory (`Path.cwd()`), the clock reading taken at generation
time, and whether the filesystem raises during directory creation or the
file write. -/
structure World where
  env : Env
  cwd : String
  now : UTCTime
  writeFails : Bool

/-- Embedding of the record assembly in `create_metadata(args)`: the
eleven-entry metadata record in insertion order, paired with the warning
lines printed to stderr while gathering it. -/
def create_metadata (args : Args) (w : World) :
    List (String × String) × List String :=
  let repo_root := w.cwd
  let duckdbPair := get_duckdb_info w.env repo_root args.build_type
  let duckdb_info := duckdbPair.1
  let extension_info := get_extension_info w.env repo_root
  ([("extension_name", args.extension_name),
    ("extension_version", extension_info.version),
    ("extension_commit", extension_info.commit),
    ("duckdb_version", duckdb_info.version),
    ("duckdb_git_describe", duckdb_info.git_describe),
    ("duckdb_commit", duckdb_info.commit),
    ("platform", args.platform),
    ("build_type", args.build_type),
    ("build_date", strftime_build_date w.now),
    ("workflow_run_id", orEmptyString args.workflow_run_id),
    ("ci_tools_version", orEmptyString args.ci_tools_version)],
   duckdbPair.2)

/-- The output path `build/<build_type>/metadata.json` under the working
directory. -/
def metadataPath (cwd build_type : String) : String :=
  joinPath (joinPath (joinPath cwd "build") build_type) "metadata.json"

/-- The eleven keys of the metadata record, in insertion order. -/
def metadataKeys : List String :=
  ["extension_name", "extension_version", "extension_commit", "duckdb_version",
   "duckdb_git_describe", "duckdb_commit", "platform", "build_type", "build_date",
   "workflow_run_id", "ci_tools_version"]

/-- Command-line options as supplied (each `none` when omitted), before
argument parsing. -/
structure RawArgs where
  extension_name : Option String
  build_type : Option String
  platform : Option String
  ci_tools_version : Option String
  workflow_run_id : Option String

/-- Embedding of `parser.parse_args()`: argparse exits with status 2
(raising `SystemExit`, which the `except Exception` clause does not catch)
when any required option is missing. -/
def parse_args (r : RawArgs) : Except Nat Args :=
  match r.extension_name, r.build_type, r.platform with
  | some en, some bt, some pf => .ok ⟨en, bt, pf, r.ci_tools_version, r.workflow_run_id⟩
  | _, _, _ => .error 2

/-- The stderr line printed by argparse on a missing required option. -/
def usageErrorLine : String := "usage: error: the following arguments are required"

/-- The stderr line printed by `main` when `create_metadata` raises. -/
def errorCreatingMetadataLine : String := "Error creating metadata"

/-- Observable result of one process run: exit code, the metadata file
written (path and record), if any, and stderr lines in order. -/
structure RunResult where
  exitCode : Nat
  written : Option (String × List (String × String))
  stderr : List String
deriving DecidableEq

/-- Embedding of `main()` composed with `sys.exit`: parse arguments
(exiting 2 on a missing required option, before the try block), then run
`create_metadata`, catching any exception as exit code 1; the duckdb
warnings are printed before the output file is opened, so they appear on
stderr even when the write fails. -/
def main (r : RawArgs) (w : World) : RunResult :=
  match parse_args r with
  | .error code => ⟨code, none, [usageErrorLine]⟩
  | .ok args =>
    let pair := create_metadata args w
    if w.writeFails then
      ⟨1, none, pair.2 ++ [errorCreatingMetadataLine]⟩
    else
      ⟨0, some (metadataPath w.cwd args.build_type, pair.1), pair.2⟩

/-- Failure of the probe of one candidate path in the modes the error
handling of the loop covers: the path does not exist, the execution raised
one of the caught exceptions (timeout, missing file, permission error), or
it completed with a non-zero return code. -/
def probeFailed (env : Env) (p : String) : Prop :=
  env.pathExists p = false ∨
  env.binaryRun p binary_version_timeout = .timedOut ∨
  env.binaryRun p binary_version_timeout = .fileNotFound ∨
  env.binaryRun p binary_version_timeout = .permissionDenied ∨
  ∃ rc out, env.binaryRun p binary_version_timeout = .completed rc out ∧ rc ≠ 0

/-- Failure of the probe of one candidate path including the case of a
binary that runs but prints nothing. -/
def probeYieldsNothing (env : Env) (p : String) : Prop :=
  probeFailed env p ∨
  ∃ rc, env.binaryRun p binary_version_timeout = .completed rc ""

/-- Success of the probe of one candidate path: the path exists and the
execution completed with return code zero, non-empty stdout, and `tok` as
the first whitespace-separated token of that stdout. -/
def probeSucceedsWith (env : Env) (p tok : String) : Prop :=
  env.pathExists p = true ∧
  ∃ out rest, env.binaryRun p binary_version_timeout = .completed 0 out ∧
    out ≠ "" ∧ pySplit (pyStrip out) = tok :: rest

/-- Concrete environment where nothing exists and every subprocess fails. -/
def envAllFail : Env :=
  ⟨fun _ => false, fun _ _ => .failed, fun _ _ => .timedOut⟩

/-- Concrete environment where every git command succeeds with padded
output. -/
def envGitOk : Env :=
  ⟨fun _ => false, fun _ _ => .ok " abc ", fun _ _ => .timedOut⟩

/-- Concrete environment where the tag query returns empty output and
every other git command returns a short hash. -/
def envTagEmpty : Env :=
  ⟨fun _ => false,
   fun _ cmd => if cmd = ["git", "tag", "--points-at", "HEAD"] then .ok "" else .ok " abc123 ",
   fun _ _ => .timedOut⟩

/-- Concrete environment where everything exists, git commands succeed,
and the first candidate binary prints a version line. -/
def envBinOk : Env :=
  ⟨fun _ => true,
   fun _ _ => .ok "deadbeef",
   fun p _ => if p = duckdbBinPath "/w" "release"
              then .completed 0 "v1.5.0-dev1754 (Development Version) c8267cbc21"
              else .completed 2 "boom"⟩

/-- Concrete environment where everything exists, the first candidate
binary exits non-zero, and the second prints a version line. -/
def envExeOk : Env :=
  ⟨fun _ => true,
   fun _ _ => .ok "deadbeef",
   fun p _ => if p = duckdbExePath "/w" "release"
              then .completed 0 "v9.9.9 (Release)"
              else .completed 1 "crash"⟩

/-- Concrete in-range clock reading. -/
def witTime : UTCTime := ⟨2025, 1, 31, 23, 59, 7⟩

/-- Concrete parsed arguments. -/
def witArgs : Args := ⟨"sqlglot", "release", "linux_amd64", none, none⟩

/-- Concrete raw command line with all required options present. -/
def rGood : RawArgs := ⟨some "sqlglot", some "release", some "linux_amd64", none, none⟩

/-- Concrete raw command line missing the required extension-name option. -/
def rMissing : RawArgs := ⟨none, some "release", some "linux_amd64", none, none⟩

/-- Concrete world whose write succeeds. -/
def wOk : World := ⟨envAllFail, "/w", witTime, false⟩

/-- Concrete world whose write raises. -/
def wFail : World := ⟨envAllFail, "/w", witTime, true⟩

/-! Helper lemmas about the probe loop. -/

/-- A candidate whose probe fails in one of the covered modes contributes
nothing to the loop. -/
theorem tryProbeBinary_eq_none_of_nothing (env : Env) (p : String)
    (h : probeYieldsNothing env p) : tryProbeBinary env p = none := by
  rcases h with (h | h | h | h | ⟨rc, out, h, hrc⟩) | ⟨rc, h⟩
  · simp [tryProbeBinary, h]
  · simp [tryProbeBinary, h]
  · simp [tryProbeBinary, h]
  · simp [tryProbeBinary, h]
  · simp [tryProbeBinary, h, hrc]
  · simp [tryProbeBinary, h]

/-- A candidate whose probe succeeds with token `tok` makes the loop stop
with value `tok`. -/
theorem tryProbeBinary_eq_some_of_succeeds (env : Env) (p tok : String)
    (h : probeSucceedsWith env p tok) : tryProbeBinary env p = some tok := by
  obtain ⟨hex, out, rest, hrun, hne, hsplit⟩ := h
  simp [tryProbeBinary, hex, hrun, hne, hsplit]

/-- C4: a git helper invocation degrades a command failure (non-zero exit
or missing executable) to the sentinel value for that one field instead of
aborting, and on success yields the command's stdout stripped of
surrounding whitespace. -/
theorem run_git_command_degrades_failures (env : Env) (cwd : String)
    (command : List String) (out : String) :
    (env.gitRun cwd command = .ok out →
      run_git_command env cwd command = pyStrip out) ∧
    (env.gitRun cwd command = .failed →
      run_git_command env cwd command = "unknown") := by
  constructor <;> intro h <;> simp [run_git_command, h]

/-- Witness for C4 at concrete inputs. -/
theorem run_git_command_degrades_failures_witness :
    run_git_command envGitOk "/w" ["git", "rev-parse", "HEAD"] = pyStrip " abc " ∧
    run_git_command envAllFail "/w" ["git", "rev-parse", "HEAD"] = "unknown" :=
  ⟨(run_git_command_degrades_failures envGitOk "/w" ["git", "rev-parse", "HEAD"] " abc ").1 rfl,
   (run_git_command_degrades_failures envAllFail "/w" ["git", "rev-parse", "HEAD"] " abc ").2 rfl⟩

/-- C5: if no tag points at the current commit (the tag query succeeds
with empty output), the extension version equals the short commit hash;
and the extension version is non-empty whenever the short-commit query
yields a non-empty string, as it does inside any version-control
repository. -/
theorem extension_version_tag_fallback (env : Env) (repo_root : String) :
    (run_git_command env repo_root ["git", "tag", "--points-at", "HEAD"] = "" →
      (get_extension_info env repo_root).version =
        run_git_command env repo_root ["git", "rev-parse", "--short", "HEAD"]) ∧
    (run_git_command env repo_root ["git", "rev-parse", "--short", "HEAD"] ≠ "" →
      (get_extension_info env repo_root).version ≠ "") := by
  constructor
  · intro h
    simp [get_extension_info, h]
  · intro h
    unfold get_extension_info
    dsimp only
    split
    · next hc => exact hc.1
    · exact h

/-- Witness for C5 at concrete inputs. -/
theorem extension_version_tag_fallback_witness :
    ((get_extension_info envTagEmpty "/w").version =
      run_git_command envTagEmpty "/w" ["git", "rev-parse", "--short", "HEAD"]) ∧
    ((get_extension_info envTagEmpty "/w").version ≠ "") :=
  ⟨(extension_version_tag_fallback envTagEmpty "/w").1 (by decide),
   (extension_version_tag_fallback envTagEmpty "/w").2 (by decide)⟩

/-- C1: whenever all required arguments are supplied and the write
succeeds, the record written to `build/<build_type>/metadata.json` has
exactly the eleven keys, in order, and every one of them is present and
mapped to a (string-typed) value. -/
theorem metadata_record_has_exactly_eleven_keys (r : RawArgs) (w : World) (args : Args)
    (hp : parse_args r = .ok args) (hw : w.writeFails = false) :
    ∃ md, (main r w).written = some (metadataPath w.cwd args.build_type, md) ∧
      md.map Prod.fst = metadataKeys ∧
      metadataKeys.all (fun k => (md.lookup k).isSome) = true := by
  refine ⟨(create_metadata args w).1, ?_, ?_, ?_⟩
  · simp [main, hp, hw]
  · simp [create_metadata, metadataKeys]
  · simp [create_metadata, metadataKeys, List.all, List.lookup]

/-- Witness for C1 at concrete inputs. -/
theorem metadata_record_has_exactly_eleven_keys_witness :
    ∃ md, (main rGood wOk).written = some (metadataPath wOk.cwd witArgs.build_type, md) ∧
      md.map Prod.fst = metadataKeys ∧
      metadataKeys.all (fun k => (md.lookup k).isSome) = true :=
  metadata_record_has_exactly_eleven_keys rGood wOk witArgs rfl rfl

/-- C2: when `duckdb/` is absent, or present without a `.git` entry, all
three duckdb fields of the written record are the sentinel, a warning
line goes to stderr, and the run still exits 0 (assuming the write itself
succeeds). -/
theorem missing_duckdb_repo_degrades_and_exits_zero (r : RawArgs) (w : World) (args : Args)
    (hp : parse_args r = .ok args) (hw : w.writeFails = false)
    (hd : w.env.pathExists (joinPath w.cwd "duckdb") = false ∨
          w.env.pathExists (joinPath (joinPath w.cwd "duckdb") ".git") = false) :
    (main r w).exitCode = 0 ∧
    (main r w).stderr ≠ [] ∧
    ∃ md, (main r w).written = some (metadataPath w.cwd args.build_type, md) ∧
      md.lookup "duckdb_version" = some "unknown" ∧
      md.lookup "duckdb_git_describe" = some "unknown" ∧
      md.lookup "duckdb_commit" = some "unknown" := by
  have hinfo : (get_duckdb_info w.env w.cwd args.build_type).1 =
      ⟨"unknown", "unknown", "unknown"⟩ ∧
      (get_duckdb_info w.env w.cwd args.build_type).2 ≠ [] := by
    by_cases h1 : w.env.pathExists (joinPath w.cwd "duckdb")
    · rcases hd with hd | hd
      · rw [h1] at hd; exact absurd hd (by simp)
      · simp [get_duckdb_info, h1, hd]
    · simp [get_duckdb_info, h1]
  refine ⟨?_, ?_, (create_metadata args w).1, ?_, ?_, ?_, ?_⟩
  · simp [main, hp, hw]
  · simp [main, hp, hw, create_metadata, hinfo.2]
  · simp [main, hp, hw]
  · simp [create_metadata, List.lookup, hinfo.1]
  · simp [create_metadata, List.lookup, hinfo.1]
  · simp [create_metadata, List.lookup, hinfo.1]

/-- Witness for C2 at concrete inputs. -/
theorem missing_duckdb_repo_degrades_and_exits_zero_witness :
    (main rGood wOk).exitCode = 0 ∧
    (main rGood wOk).stderr ≠ [] ∧
    ∃ md, (main rGood wOk).written = some (metadataPath wOk.cwd witArgs.build_type, md) ∧
      md.lookup "duckdb_version" = some "unknown" ∧
      md.lookup "duckdb_git_describe" = some "unknown" ∧
      md.lookup "duckdb_commit" = some "unknown" :=
  missing_duckdb_repo_degrades_and_exits_zero rGood wOk witArgs rfl rfl (Or.inl rfl)

/-- C3: when the probe of each candidate binary fails — timeout, missing
binary, non-zero exit status, or permission error — `duckdb_version` stays
the sentinel; the probe catches these outcomes (it is a total function of
them), and the subprocess wait is bounded by the fixed five-second
timeout. -/
theorem failed_probes_leave_version_unknown (env : Env) (repo_root build_type : String)
    (h1 : probeFailed env (duckdbBinPath repo_root build_type))
    (h2 : probeFailed env (duckdbExePath repo_root build_type)) :
    (get_duckdb_info env repo_root build_type).1.version = "unknown" ∧
    binary_version_timeout = 5 := by
  refine ⟨?_, rfl⟩
  have t1 := tryProbeBinary_eq_none_of_nothing env _ (Or.inl h1)
  have t2 := tryProbeBinary_eq_none_of_nothing env _ (Or.inl h2)
  unfold get_duckdb_info
  dsimp only
  split
  · rfl
  · split
    · rfl
    · simp [binary_paths, probeBinaries, t1, t2]

/-- Witness for C3 at concrete inputs. -/
theorem failed_probes_leave_version_unknown_witness :
    (get_duckdb_info envAllFail "/w" "release").1.version = "unknown" ∧
    binary_version_timeout = 5 :=
  failed_probes_leave_version_unknown envAllFail "/w" "release" (Or.inl rfl) (Or.inl rfl)

/-- C6: the exit code is 0 on success and 1 when orchestration raises
(with no file written); omitting the required extension-name option makes
argument parsing exit non-zero, before any file is written. -/
theorem exit_code_policy (r : RawArgs) (w : World) :
    (∀ args, parse_args r = .ok args → w.writeFails = false →
      (main r w).exitCode = 0 ∧ (main r w).written ≠ none) ∧
    (∀ args, parse_args r = .ok args → w.writeFails = true →
      (main r w).exitCode = 1 ∧ (main r w).written = none) ∧
    (r.extension_name = none →
      (main r w).exitCode ≠ 0 ∧ (main r w).written = none) := by
  refine ⟨?_, ?_, ?_⟩
  · intro args hp hw
    simp [main, hp, hw]
  · intro args hp hw
    simp [main, hp, hw]
  · intro hen
    obtain ⟨en, bt, pf, ct, wi⟩ := r
    cases hen
    have hperr : parse_args ⟨none, bt, pf, ct, wi⟩ = .error 2 := by
      cases bt <;> cases pf <;> rfl
    simp [main, hperr]

/-- Witness for C6 at concrete inputs. -/
theorem exit_code_policy_witness :
    ((main rGood wOk).exitCode = 0 ∧ (main rGood wOk).written ≠ none) ∧
    ((main rGood wFail).exitCode = 1 ∧ (main rGood wFail).written = none) ∧
    ((main rMissing wOk).exitCode ≠ 0 ∧ (main rMissing wOk).written = none) :=
  ⟨(exit_code_policy rGood wOk).1 witArgs rfl rfl,
   (exit_code_policy rGood wFail).2.1 witArgs rfl rfl,
   (exit_code_policy rMissing wOk).2.2 rfl⟩

/-- C7: when a located candidate binary runs with the version flag and
succeeds — exit status zero with non-empty stdout — `duckdb_version`
becomes the first whitespace-separated token of that output, whether the
binary was located at the first candidate path or (the first being absent)
at the second. -/
theorem successful_probe_takes_first_token (env : Env) (repo_root build_type tok : String)
    (hdir : env.pathExists (joinPath repo_root "duckdb") = true)
    (hgit : env.pathExists (joinPath (joinPath repo_root "duckdb") ".git") = true) :
    (probeSucceedsWith env (duckdbBinPath repo_root build_type) tok →
      (get_duckdb_info env repo_root build_type).1.version = tok) ∧
    (env.pathExists (duckdbBinPath repo_root build_type) = false →
      probeSucceedsWith env (duckdbExePath repo_root build_type) tok →
      (get_duckdb_info env repo_root build_type).1.version = tok) := by
  constructor
  · intro h
    have t1 := tryProbeBinary_eq_some_of_succeeds env _ tok h
    simp [get_duckdb_info, hdir, hgit, binary_paths, probeBinaries, t1]
  · intro h1 h2
    have t1 := tryProbeBinary_eq_none_of_nothing env _ (Or.inl (Or.inl h1))
    have t2 := tryProbeBinary_eq_some_of_succeeds env _ tok h2
    simp [get_duckdb_info, hdir, hgit, binary_paths, probeBinaries, t1, t2]

/-- Witness for C7 at concrete inputs. -/
theorem successful_probe_takes_first_token_witness :
    (get_duckdb_info envBinOk "/w" "release").1.version = "v1.5.0-dev1754" :=
  (successful_probe_takes_first_token envBinOk "/w" "release" "v1.5.0-dev1754" rfl rfl).1
    ⟨rfl, "v1.5.0-dev1754 (Development Version) c8267cbc21",
     ["(Development", "Version)", "c8267cbc21"], rfl, by decide, by decide⟩

/-- C10: the probe tries `build/<build_type>/duckdb` before
`build/<build_type>/duckdb.exe` and stops at the first candidate whose
execution yields exit status zero and a non-empty first token; a first
candidate that is absent, exits non-zero, prints nothing, or raises a
caught error does not stop the probe, and the second candidate is still
tried. -/
theorem probe_tries_paths_in_fixed_order (env : Env) (repo_root build_type tok : String)
    (hdir : env.pathExists (joinPath repo_root "duckdb") = true)
    (hgit : env.pathExists (joinPath (joinPath repo_root "duckdb") ".git") = true) :
    binary_paths repo_root build_type =
      [duckdbBinPath repo_root build_type, duckdbExePath repo_root build_type] ∧
    (probeSucceedsWith env (duckdbBinPath repo_root build_type) tok →
      (get_duckdb_info env repo_root build_type).1.version = tok) ∧
    (probeYieldsNothing env (duckdbBinPath repo_root build_type) →
      probeSucceedsWith env (duckdbExePath repo_root build_type) tok →
      (get_duckdb_info env repo_root build_type).1.version = tok) ∧
    (probeYieldsNothing env (duckdbBinPath repo_root build_type) →
      probeYieldsNothing env (duckdbExePath repo_root build_type) →
      (get_duckdb_info env repo_root build_type).1.version = "unknown") := by
  refine ⟨rfl, ?_, ?_, ?_⟩
  · intro h
    have t1 := tryProbeBinary_eq_some_of_succeeds env _ tok h
    simp [get_duckdb_info, hdir, hgit, binary_paths, probeBinaries, t1]
  · intro h1 h2
    have t1 := tryProbeBinary_eq_none_of_nothing env _ h1
    have t2 := tryProbeBinary_eq_some_of_succeeds env _ tok h2
    simp [get_duckdb_info, hdir, hgit, binary_paths, probeBinaries, t1, t2]
  · intro h1 h2
    have t1 := tryProbeBinary_eq_none_of_nothing env _ h1
    have t2 := tryProbeBinary_eq_none_of_nothing env _ h2
    simp [get_duckdb_info, hdir, hgit, binary_paths, probeBinaries, t1, t2]

/-- Witness for C10 at concrete inputs: the first candidate exits
non-zero, so the version comes from the second. -/
theorem probe_tries_paths_in_fixed_order_witness :
    binary_paths "/w" "release" = [duckdbBinPath "/w" "release", duckdbExePath "/w" "release"] ∧
    (get_duckdb_info envExeOk "/w" "release").1.version = "v9.9.9" :=
  ⟨(probe_tries_paths_in_fixed_order envExeOk "/w" "release" "v9.9.9" rfl rfl).1,
   (probe_tries_paths_in_fixed_order envExeOk "/w" "release" "v9.9.9" rfl rfl).2.2.1
     (Or.inl (Or.inr (Or.inr (Or.inr (Or.inr ⟨1, "crash", by decide, by decide⟩)))))
     ⟨rfl, "v9.9.9 (Release)", ["(Release)"], by decide, by decide, by decide⟩⟩

/-- C9: a failed tag query (sentinel result) and an empty tag result both
fall back to the short commit hash, and — given that a successful
short-hash query never returns an empty or sentinel string, which holds
for every real git invocation — the extension version is the sentinel
exactly when the short-commit query itself fails. -/
theorem tag_failure_merges_with_empty_tag (env : Env) (repo_root : String)
    (hshort : ∀ s, env.gitRun repo_root ["git", "rev-parse", "--short", "HEAD"] = .ok s →
      pyStrip s ≠ "" ∧ pyStrip s ≠ "unknown")
    (htag : run_git_command env repo_root ["git", "tag", "--points-at", "HEAD"] = "" ∨
            run_git_command env repo_root ["git", "tag", "--points-at", "HEAD"] = "unknown") :
    (get_extension_info env repo_root).version =
      run_git_command env repo_root ["git", "rev-parse", "--short", "HEAD"] ∧
    ((get_extension_info env repo_root).version = "unknown" ↔
      env.gitRun repo_root ["git", "rev-parse", "--short", "HEAD"] = .failed) := by
  have hv : (get_extension_info env repo_root).version =
      run_git_command env repo_root ["git", "rev-parse", "--short", "HEAD"] := by
    unfold get_extension_info
    dsimp only
    rcases htag with h | h <;> rw [h] <;> simp
  refine ⟨hv, ?_⟩
  rw [hv]
  cases hrun : env.gitRun repo_root ["git", "rev-parse", "--short", "HEAD"] with
  | ok s =>
    have hs := hshort s hrun
    simp [run_git_command, hrun, hs.2]
  | failed =>
    simp [run_git_command, hrun]

/-- Witness for C9 at concrete inputs. -/
theorem tag_failure_merges_with_empty_tag_witness :
    (get_extension_info envTagEmpty "/w").version =
      run_git_command envTagEmpty "/w" ["git", "rev-parse", "--short", "HEAD"] ∧
    ((get_extension_info envTagEmpty "/w").version = "unknown" ↔
      envTagEmpty.gitRun "/w" ["git", "rev-parse", "--short", "HEAD"] = .failed) := by
  refine tag_failure_merges_with_empty_tag envTagEmpty "/w" ?_ ?_
  · intro s h
    have hs : ProcResult.ok " abc123 " = ProcResult.ok s := h
    cases hs
    exact ⟨by decide, by decide⟩
  · exact Or.inl (by decide)

/-! Digit and timestamp lemmas for the build-date format. -/

/-- A padded digit character is a digit. -/
theorem isDigitCh_digitChar (n : Nat) (h : n < 10) : isDigitCh (digitChar n) = true := by
  interval_cases n <;> decide

/-- Reading back a padded digit character gives the digit. -/
theorem charToDigit_digitChar (n : Nat) (h : n < 10) : charToDigit (digitChar n) = n := by
  interval_cases n <;> decide

/-- No month has more than 31 days. -/
theorem daysInMonth_le (y m : Nat) : daysInMonth y m ≤ 31 := by
  unfold daysInMonth
  split
  · split <;> omega
  · split <;> omega

/-- Four-digit zero-padded printing followed by reading is the identity
below 10000. -/
theorem val4_pad (n : Nat) (h : n ≤ 9999) :
    val4 (digitChar (n / 1000 % 10)) (digitChar (n / 100 % 10))
      (digitChar (n / 10 % 10)) (digitChar (n % 10)) = n := by
  unfold val4
  rw [charToDigit_digitChar _ (by omega), charToDigit_digitChar _ (by omega),
      charToDigit_digitChar _ (by omega), charToDigit_digitChar _ (by omega)]
  omega

/-- Two-digit zero-padded printing followed by reading is the identity
below 100. -/
theorem val2_pad (n : Nat) (h : n ≤ 99) :
    val2 (digitChar (n / 10 % 10)) (digitChar (n % 10)) = n := by
  unfold val2
  rw [charToDigit_digitChar _ (by omega), charToDigit_digitChar _ (by omega)]
  omega

/-- Parsing the formatted build date of a valid clock reading recovers
that reading. -/
theorem parse_build_date_roundtrip (t : UTCTime) (h : t.valid) :
    parse_build_date (strftime_build_date t) = some t := by
  obtain ⟨y, mo, d, hh, mi, s⟩ := t
  unfold UTCTime.valid at h
  dsimp only at h
  obtain ⟨h1, h2, h3, h4, h5, h6, h7, h8, h9⟩ := h
  have hd31 : d ≤ 31 := le_trans h6 (daysInMonth_le y mo)
  unfold strftime_build_date parse_build_date
  have hl : (String.mk (buildDateChars ⟨y, mo, d, hh, mi, s⟩)).toList =
      buildDateChars ⟨y, mo, d, hh, mi, s⟩ := rfl
  rw [hl]
  unfold buildDateChars pad4Chars pad2Chars
  simp only [List.cons_append, List.nil_append]
  rw [parseChars]
  rw [if_pos]
  · rw [val4_pad y (by omega), val2_pad mo (by omega), val2_pad d (by omega),
        val2_pad hh (by omega), val2_pad mi (by omega), val2_pad s (by omega)]
  · refine ⟨rfl, rfl, rfl, rfl, rfl, rfl,
      ?_, ?_, ?_, ?_, ?_, ?_, ?_, ?_, ?_, ?_, ?_, ?_, ?_, ?_⟩ <;>
      exact isDigitCh_digitChar _ (by omega)

/-- C8: the build_date field of the record is the formatted clock reading
taken at generation time; it matches the pattern `YYYY-MM-DDTHH:MM:SSZ`
and parses back to exactly that UTC instant, for every clock reading in
the ranges Python datetime guarantees. -/
theorem build_date_matches_pattern (args : Args) (w : World) (h : w.now.valid) :
    (create_metadata args w).1.lookup "build_date" = some (strftime_build_date w.now) ∧
    matchesBuildDatePattern (strftime_build_date w.now) = true ∧
    parse_build_date (strftime_build_date w.now) = some w.now := by
  have hr := parse_build_date_roundtrip w.now h
  refine ⟨?_, ?_, hr⟩
  · simp [create_metadata, List.lookup]
  · simp [matchesBuildDatePattern, hr]

/-- Witness for C8 at concrete inputs. -/
theorem build_date_matches_pattern_witness :
    (create_metadata witArgs wOk).1.lookup "build_date" = some (strftime_build_date wOk.now) ∧
    matchesBuildDatePattern (strftime_build_date wOk.now) = true ∧
    parse_build_date (strftime_build_date wOk.now) = some wOk.now :=
  build_date_matches_pattern witArgs wOk (by decide)

end CreateBuildMetadata
